import Mathlib

/-!
# RustinBot song_consumer — verification of the specified behaviour

Shallow embedding of `src/song_consumer/src/main.rs` (and its data model in
`src/song_consumer/src/models.rs`).  Network effects are modelled by explicit
environments: every external call site (the three HTTP stages, task joining,
queue publish, queue acknowledgement) is given its outcome as data, and the
pure control flow of the Rust source is translated faithfully.
-/

namespace RustinBot

/-- `RabbitMessage` (models.rs, lines 3-7): the wire record consumed from the
`Music` queue and published to the `Reply` queue. `chat_id: i64` is modelled
as `Int`, `text: String` as `String`. -/
structure RabbitMessage where
  chat_id : Int
  text : String
deriving DecidableEq, Repr

/-- `ConvertResponse` (models.rs, lines 39-42): body of a successful convert
call, carrying the direct download link. -/
structure ConvertResponse where
  dlink : String
deriving DecidableEq, Repr

/-! ## Rust `str::lines`

`process_songs` splits the request text with `text.lines()` (main.rs line 77).
Rust's `str::lines` splits at `'\n'`, strips one `'\r'` from a line that was
terminated by `"\r\n"`, and a final trailing newline produces no extra empty
line.  We model it on character lists. -/

/-- Drop a single trailing `'\r'` (Rust strips it from a line that was
terminated by `"\r\n"`). -/
def stripTrailingCR (l : List Char) : List Char :=
  if l.getLast? = some '\r' then l.dropLast else l

/-- Rust `str::lines` on character lists: split at every `'\n'`; every
segment except the final one was `'\n'`-terminated, hence loses a trailing
`'\r'`; the final segment is kept verbatim unless it is empty (a trailing
newline yields no extra line). -/
def rustLinesCore (cs : List Char) : List (List Char) :=
  let parts := cs.splitOn '\n'
  let init := parts.dropLast.map stripTrailingCR
  match parts.getLast? with
  | some [] => init
  | some last => init ++ [last]
  | none => init

/-- `text.lines()` as used at main.rs line 77, on `String`. -/
def rustLines (s : String) : List String :=
  (rustLinesCore s.data).map (fun l => String.mk l)

/-! ## The three resolution stages and one song's task

Each stage of the external resolver returns `Result<Option<String>, DynError>`
in the source, i.e. `Except String (Option String)` here.  A `StageOracles`
record gives the task the outcome of each stage call it might make. -/

/-- The stage outcomes the environment would hand one song's task:
`search` for `search_youtube` (main.rs 130-148), `tomp3k` for `get_tomp3_k`
(main.rs 158-197), `convert` for `convert_to_mp3` (main.rs 199-210). -/
structure StageOracles where
  search : Except String (Option String)
  tomp3k : Except String (Option String)
  convert : Except String (Option String)

/-- How one song's task terminates, keeping the branch provenance distinct:
`stageErr n e` is a stage-`n` call whose `Err` propagated through `?`;
`noVideo`, `noK` and `noDlink` are the three `ok_or_else` branches taken on an
`Ok(None)` (main.rs lines 91, 97, 103-105); `success` carries the formatted
line of main.rs line 110. -/
inductive SongTermination where
  | stageErr (stage : Nat) (e : String)
  | noVideo
  | noK
  | noDlink
  | success (line : String)
deriving DecidableEq, Repr

/-- The body of the spawned task (main.rs lines 86-111): three strictly
sequential stage calls, each `?`-propagating its error and `ok_or_else`-failing
on `None`, ending in the formatted success line `"🎵 *{song}*\n🔗 {dlink}"`. -/
def resolveSongT (song : String) (o : StageOracles) : SongTermination :=
  match o.search with
  | .error e => .stageErr 1 e
  | .ok none => .noVideo
  | .ok (some _videoId) =>
    match o.tomp3k with
    | .error e => .stageErr 2 e
    | .ok none => .noK
    | .ok (some _k) =>
      match o.convert with
      | .error e => .stageErr 3 e
      | .ok none => .noDlink
      | .ok (some dlink) => .success ("🎵 *" ++ song ++ "*\n🔗 " ++ dlink)

/-- How many of the three stage calls a terminated task actually performed. -/
def SongTermination.stagesInvoked : SongTermination → Nat
  | .stageErr n _ => n
  | .noVideo => 1
  | .noK => 2
  | .noDlink => 3
  | .success _ => 3

/-- The task's `Result<String, DynError>` as returned to `join_all`, i.e. the
error strings produced by the `ok_or_else` calls at main.rs 91, 97, 104. -/
def SongTermination.toResult : SongTermination → Except String String
  | .stageErr _ e => .error e
  | .noVideo => .error "No video found"
  | .noK => .error "Failed to get k parameter"
  | .noDlink => .error "Failed to get download link"
  | .success line => .ok line

/-- `convert_to_mp3` (main.rs 199-210) given the outcome of its HTTP POST and
JSON decode: on success it wraps the decoded `dlink` in `Some`. -/
def convert_to_mp3 (response : Except String ConvertResponse) :
    Except String (Option String) :=
  match response with
  | .error e => .error e
  | .ok r => .ok (some r.dlink)

/-! ## Task outcomes as seen by `join_all` and the aggregation loop -/

/-- A task handle's result at the join point (main.rs 116-125):
`panicked` is the outer `Err` (a `JoinError`), `failed` the inner
`Ok(Err(e))`, `succeeded` the inner `Ok(Ok(link))`. -/
inductive TaskOutcome where
  | panicked (e : String)
  | failed (e : String)
  | succeeded (link : String)
deriving DecidableEq, Repr

/-- The environment of one spawned task: whether the join handle reports an
abnormal termination, and the stage outcomes its calls would see. -/
structure TaskEnv where
  joinPanic : Option String
  oracles : StageOracles

/-- Run one spawned task to the outcome its join handle delivers. -/
def runTask (song : String) (env : TaskEnv) : TaskOutcome :=
  match env.joinPanic with
  | some e => .panicked e
  | none =>
    match (resolveSongT song env.oracles).toResult with
    | .error e => .failed e
    | .ok link => .succeeded link

/-- Spawn loop of main.rs lines 80-114: one task per song, in order; the
environment assigns each spawn (by position and song text) its `TaskEnv`. -/
def run_tasks (envOf : Nat → String → TaskEnv) : Nat → List String → List TaskOutcome
  | _, [] => []
  | i, song :: rest => runTask song (envOf i song) :: run_tasks envOf (i + 1) rest

/-- Aggregation loop of main.rs lines 119-125, carrying the running
`enumerate` index: a success at index `i` pushes `"{i+1}. {link}"`; task
errors and panics are only logged. -/
def collect_links_from : Nat → List TaskOutcome → List String
  | _, [] => []
  | index, .succeeded link :: rest =>
      (toString (index + 1) ++ ". " ++ link) :: collect_links_from (index + 1) rest
  | index, .failed _ :: rest => collect_links_from (index + 1) rest
  | index, .panicked _ :: rest => collect_links_from (index + 1) rest

/-- The full aggregation of main.rs lines 116-125 (`enumerate` starts at 0). -/
def collect_links (results : List TaskOutcome) : List String :=
  collect_links_from 0 results

/-- The per-batch environment of `process_songs`: whether building the
cookie-bearing `mp3_client` fails (main.rs line 74, the only `?` before the
spawn loop), and each spawned task's environment. -/
structure BatchEnv where
  clientBuildError : Option String
  envOf : Nat → String → TaskEnv

/-- `process_songs` (main.rs 70-128): build the clients, split `text` into
lines, spawn one task per line, join all, collect the successes with their
positional numbers, and return `Ok(links)`. -/
def process_songs (text : String) (benv : BatchEnv) : Except String (List String) :=
  match benv.clientBuildError with
  | some e => .error e
  | none =>
    let songs := rustLines text
    let results := run_tasks benv.envOf 0 songs
    .ok (collect_links results)

/-- The pure content of `publish_to_reply_queue` (main.rs 212-233): the
message it serialises and publishes to the `Reply` queue — the caller's
`chat_id` and the `"\n"`-joined links. -/
def publish_to_reply_queue (chat_id : Int) (links : List String) : RabbitMessage :=
  { chat_id := chat_id, text := String.intercalate "\n" links }

/-! ## One iteration of the consumer loop -/

/-- The broker-side outcomes of one loop iteration: whether `basic_publish`
and `delivery.ack` would succeed, plus the batch environment. -/
structure MessageEnv where
  batch : BatchEnv
  publishResult : Except String Unit
  ackResult : Except String Unit

/-- The externally visible effect of one iteration of the `while let` loop
(main.rs 43-65): whether the delivery was acknowledged, what (if anything)
was published to the `Reply` queue, and whether a `?` propagated an error out
of `main` (terminating the process). -/
structure StepResult where
  acked : Bool
  published : Option RabbitMessage
  fatal : Option String
deriving DecidableEq, Repr

/-- One iteration of the consumer loop (main.rs 43-65).  `delivery` is the
item `consumer.next()` yielded: outer `Err` is a receive failure (logged,
loop continues, line 61-63); parsing the payload is the inner `Except`
(`serde_json::from_slice(...)?` at line 47 — its `Err` is fatal); then
`process_songs` (`Err` logged, loop continues, lines 56-58), then
`publish_to_reply_queue(...)?` and `delivery.ack(...)?` (both fatal on
`Err`, lines 52-53). -/
def handle_delivery (delivery : Except String (Except String RabbitMessage))
    (menv : MessageEnv) : StepResult :=
  match delivery with
  | .error _e => { acked := false, published := none, fatal := none }
  | .ok parsed =>
    match parsed with
    | .error e => { acked := false, published := none, fatal := some e }
    | .ok message =>
      match process_songs message.text menv.batch with
      | .error _e => { acked := false, published := none, fatal := none }
      | .ok links =>
        match menv.publishResult with
        | .error e => { acked := false, published := none, fatal := some e }
        | .ok _ =>
          let reply := publish_to_reply_queue message.chat_id links
          match menv.ackResult with
          | .error e => { acked := false, published := some reply, fatal := some e }
          | .ok _ => { acked := true, published := some reply, fatal := none }

/-! ## Specification-side helpers and concrete environments -/

/-- Specification view of one step of the aggregation loop: a success at
position `i` contributes the line `"{i+1}. {link}"`, a failed or panicked
task contributes nothing. -/
def fmtLine (p : Nat × TaskOutcome) : Option String :=
  match p.2 with
  | .succeeded link => some (toString (p.1 + 1) ++ ". " ++ link)
  | _ => none

/-- Specification helper: the lines the aggregation loop would produce if the
task at absolute position `mask` were discarded regardless of its outcome,
all other positions keeping their original numbers. -/
def collect_links_masked (mask : Nat) : Nat → List TaskOutcome → List String
  | _, [] => []
  | index, r :: rest =>
    if index = mask then collect_links_masked mask (index + 1) rest
    else
      match r with
      | .succeeded link =>
          (toString (index + 1) ++ ". " ++ link) :: collect_links_masked mask (index + 1) rest
      | _ => collect_links_masked mask (index + 1) rest

/-- A task environment whose search stage finds no video: the task fails. -/
def failEnv : TaskEnv :=
  { joinPanic := none,
    oracles := { search := .ok none, tomp3k := .ok none, convert := .ok none } }

/-- A task environment in which all three stages succeed, the convert stage
yielding `dlink`. -/
def okEnv (dlink : String) : TaskEnv :=
  { joinPanic := none,
    oracles := { search := .ok (some "vid"), tomp3k := .ok (some "kk"),
                 convert := .ok (some dlink) } }

/-- Batch environment in which exactly the song `"B"` fails and every other
song `s` resolves to the link `"L" ++ s`. -/
def benvC1 : BatchEnv :=
  { clientBuildError := none,
    envOf := fun _ s => if s = "B" then failEnv else okEnv ("L" ++ s) }

/-- Batch environment in which every song fails at the search stage. -/
def benvAllFail : BatchEnv :=
  { clientBuildError := none, envOf := fun _ _ => failEnv }

/-- Batch environment in which every song `s` resolves to `"L" ++ s`. -/
def benvAllOk : BatchEnv :=
  { clientBuildError := none, envOf := fun _ s => okEnv ("L" ++ s) }

/-- Message environment whose publish to the `Reply` queue fails. -/
def menvPubFail : MessageEnv :=
  { batch := benvAllFail, publishResult := .error "publish failed",
    ackResult := .ok () }

/-- Message environment whose acknowledgement fails. -/
def menvAckFail : MessageEnv :=
  { batch := benvAllFail, publishResult := .ok (), ackResult := .error "ack failed" }

/-- Message environment in which every broker operation succeeds but every
song fails to resolve. -/
def menvOkAllFail : MessageEnv :=
  { batch := benvAllFail, publishResult := .ok (), ackResult := .ok () }

/-! ## Helper lemmas -/

/-- The aggregation loop is the `filterMap` of `fmtLine` over the
`enumerate`d results. -/
lemma collect_links_from_eq_filterMap (results : List TaskOutcome) :
    ∀ n, collect_links_from n results = (List.enumFrom n results).filterMap fmtLine := by
  induction results with
  | nil => intro n; rfl
  | cons r rest ih =>
    intro n
    cases r <;> simp [collect_links_from, List.enumFrom, fmtLine, ih]

/-- When every spawned task's environment succeeds in all three stages, the
collected links are the input songs in order, each formatted and numbered by
its input position. -/
lemma collect_links_all_ok (envOf : Nat → String → TaskEnv)
    (dlink : Nat → String → String)
    (hok : ∀ i s, (envOf i s).joinPanic = none ∧
      (∃ v, (envOf i s).oracles.search = .ok (some v)) ∧
      (∃ k, (envOf i s).oracles.tomp3k = .ok (some k)) ∧
      (envOf i s).oracles.convert = .ok (some (dlink i s))) :
    ∀ (songs : List String) (n : Nat),
      collect_links_from n (run_tasks envOf n songs) =
        (List.enumFrom n songs).map (fun p =>
          toString (p.1 + 1) ++ ". " ++ ("🎵 *" ++ p.2 ++ "*\n🔗 " ++ dlink p.1 p.2)) := by
  intro songs
  induction songs with
  | nil => intro n; rfl
  | cons s rest ih =>
    intro n
    obtain ⟨hj, ⟨v, hv⟩, ⟨k, hk⟩, hc⟩ := hok n s
    have htask : runTask s (envOf n s) =
        .succeeded ("🎵 *" ++ s ++ "*\n🔗 " ++ dlink n s) := by
      unfold runTask resolveSongT
      rw [hj, hv, hk, hc]
      rfl
    simp [run_tasks, htask, collect_links_from, List.enumFrom, ih]

/-- When no spawned task succeeds, the aggregation collects nothing. -/
lemma collect_links_none_ok (envOf : Nat → String → TaskEnv)
    (hfail : ∀ i s link, runTask s (envOf i s) ≠ .succeeded link) :
    ∀ (songs : List String) (n : Nat),
      collect_links_from n (run_tasks envOf n songs) = [] := by
  intro songs
  induction songs with
  | nil => intro n; rfl
  | cons s rest ih =>
    intro n
    cases htask : runTask s (envOf n s) with
    | succeeded link => exact absurd htask (hfail n s link)
    | failed e => simp [run_tasks, htask, collect_links_from, ih]
    | panicked e => simp [run_tasks, htask, collect_links_from, ih]

/-- A mask below the running index never fires: the masked collector agrees
with the plain one. -/
lemma collect_links_masked_out (results : List TaskOutcome) :
    ∀ n mask, mask < n →
      collect_links_masked mask n results = collect_links_from n results := by
  induction results with
  | nil => intros; rfl
  | cons r rest ih =>
    intro n mask h
    have hne : ¬ (n = mask) := by omega
    cases r <;>
      simp [collect_links_masked, collect_links_from, hne,
        ih (n + 1) mask (by omega)]

/-- Replacing the outcome at one position by a non-success yields exactly the
masked collection: every other position keeps its line and number. -/
lemma collect_links_set (out : TaskOutcome)
    (hout : ∀ link, out ≠ .succeeded link) :
    ∀ (results : List TaskOutcome) (n i : Nat),
      collect_links_from n (results.set i out) =
        collect_links_masked (n + i) n results := by
  intro results
  induction results with
  | nil => intros; rfl
  | cons r rest ih =>
    intro n i
    cases i with
    | zero =>
      rcases hc : out with e | e | link
      · simp [List.set, collect_links_from, collect_links_masked,
          collect_links_masked_out rest (n + 1) n (Nat.lt_succ_self n)]
      · simp [List.set, collect_links_from, collect_links_masked,
          collect_links_masked_out rest (n + 1) n (Nat.lt_succ_self n)]
      · exact absurd hc (hout link)
    | succ j =>
      have hne2 : ¬ (n = n + (j + 1)) := by omega
      have ihj := ih (n + 1) j
      have harith : n + 1 + j = n + (j + 1) := by omega
      rw [harith] at ihj
      cases r <;> simp [List.set, collect_links_from, collect_links_masked, hne2, ihj]

/-! ## Claims -/

/-- C1 (amended): in every published reply, each line carries the number
`i + 1` of the song's original input position `i`; songs that failed are
omitted, leaving gaps in the numbering (no dense renumbering). -/
theorem c1_positional_numbering (results : List TaskOutcome) :
    collect_links results = results.enum.filterMap fmtLine :=
  collect_links_from_eq_filterMap results 0

/-- C1 (counterexample): with input lines `[A, B, C]` and only `B` failing,
the code publishes `1. <A>` and `3. <C>` — not the densely renumbered
`1. <A>`, `2. <C>` the claim predicts. -/
theorem c1_counterexample :
    process_songs "A\nB\nC" benvC1 =
      .ok ["1. 🎵 *A*\n🔗 LA", "3. 🎵 *C*\n🔗 LC"] ∧
    (["1. 🎵 *A*\n🔗 LA", "3. 🎵 *C*\n🔗 LC"] : List String) ≠
      ["1. 🎵 *A*\n🔗 LA", "2. 🎵 *C*\n🔗 LC"] :=
  ⟨rfl, by decide⟩

/-- C4: a delivery whose payload fails to parse makes the `?` at main.rs
line 47 propagate out of `main`: the iteration ends fatally (the process
terminates), with nothing published and nothing acknowledged. -/
theorem c4_parse_failure_fatal (e : String) (menv : MessageEnv) :
    handle_delivery (.ok (.error e)) menv =
      { acked := false, published := none, fatal := some e } :=
  rfl

/-- C7: the three stages run strictly sequentially and short-circuit: a
stage-1 error or miss stops after stage 1 with the `"No video found"`
reason; when stage 1 succeeds and stage 2 yields no token, the task stops
after stage 2 — stage 3 (convert) is never invoked — and fails with the
terminal reason `"Failed to get k parameter"`; a stage-2 error likewise
stops after stage 2. -/
theorem c7_short_circuit (song : String) (o : StageOracles) :
    (∀ e, o.search = .error e → (resolveSongT song o).stagesInvoked = 1) ∧
    (o.search = .ok none →
      (resolveSongT song o).toResult = .error "No video found" ∧
      (resolveSongT song o).stagesInvoked = 1) ∧
    (∀ v, o.search = .ok (some v) → o.tomp3k = .ok none →
      resolveSongT song o = .noK ∧
      (resolveSongT song o).toResult = .error "Failed to get k parameter" ∧
      (resolveSongT song o).stagesInvoked = 2) ∧
    (∀ v e, o.search = .ok (some v) → o.tomp3k = .error e →
      (resolveSongT song o).stagesInvoked = 2) := by
  refine ⟨?_, ?_, ?_, ?_⟩ <;> intros <;>
    simp_all [resolveSongT, SongTermination.toResult, SongTermination.stagesInvoked]

/-- C7 (witness): with stage 1 finding a video and stage 2 yielding no
token, the task terminates in the `noK` branch. -/
theorem c7_witness :
    resolveSongT "song" ⟨.ok (some "v"), .ok none, .ok none⟩ = .noK :=
  ((c7_short_circuit "song" ⟨.ok (some "v"), .ok none, .ok none⟩).2.2.1 "v" rfl rfl).1

/-- C10: `convert_to_mp3` never returns `Ok(None)` — on HTTP and decode
success it always wraps the decoded `dlink` in `Some` — so the
`"Failed to get download link"` branch (`noDlink`) of the resolution task is
unreachable whenever the convert oracle is what `convert_to_mp3` returns:
that stage can only fail with a request error. -/
theorem c10_convert_never_none (song : String) (o : StageOracles)
    (response : Except String ConvertResponse)
    (h : o.convert = convert_to_mp3 response) :
    convert_to_mp3 response ≠ .ok none ∧ resolveSongT song o ≠ .noDlink := by
  constructor
  · cases response <;> simp [convert_to_mp3]
  · intro hd
    unfold resolveSongT at hd
    rcases hs : o.search with e | ov <;> rw [hs] at hd
    · exact nomatch hd
    · rcases ov with _ | v
      · exact nomatch hd
      · rcases hk : o.tomp3k with e | kv <;> rw [hk] at hd
        · exact nomatch hd
        · rcases kv with _ | k
          · exact nomatch hd
          · rw [h] at hd
            rcases response with e | r <;> simp [convert_to_mp3] at hd

/-- C10 (witness): a successful convert response with link `"D"` is not
`Ok(None)`. -/
theorem c10_witness :
    convert_to_mp3 (.ok ⟨"D"⟩) ≠ .ok none :=
  (c10_convert_never_none "s"
    ⟨.ok (some "v"), .ok (some "k"), convert_to_mp3 (.ok ⟨"D"⟩)⟩
    (.ok ⟨"D"⟩) rfl).1

/-- C2 (amended): the message is acknowledged iff resolution, the publish,
and the acknowledgement operation itself all succeed; a resolution failure
is logged and the loop continues with the message unacknowledged and nothing
published; a publish or acknowledgement failure propagates through `?` and
terminates the process rather than continuing the loop. -/
theorem c2_ack_and_failure_modes (msg : RabbitMessage) (menv : MessageEnv) :
    ((handle_delivery (.ok (.ok msg)) menv).acked = true ↔
      (∃ links, process_songs msg.text menv.batch = .ok links) ∧
        menv.publishResult = .ok () ∧ menv.ackResult = .ok ()) ∧
    (∀ e, process_songs msg.text menv.batch = .error e →
      handle_delivery (.ok (.ok msg)) menv =
        { acked := false, published := none, fatal := none }) ∧
    (∀ links e, process_songs msg.text menv.batch = .ok links →
      menv.publishResult = .error e →
      (handle_delivery (.ok (.ok msg)) menv).fatal = some e ∧
      (handle_delivery (.ok (.ok msg)) menv).acked = false) ∧
    (∀ links e, process_songs msg.text menv.batch = .ok links →
      menv.publishResult = .ok () → menv.ackResult = .error e →
      (handle_delivery (.ok (.ok msg)) menv).fatal = some e ∧
      (handle_delivery (.ok (.ok msg)) menv).acked = false) := by
  rcases hp : process_songs msg.text menv.batch with e | links <;>
    rcases hpub : menv.publishResult with pe | pu <;>
      rcases hack : menv.ackResult with ae | au <;>
        simp [handle_delivery, hp, hpub, hack]

/-- C2 (witness): a concrete message that parses, resolves to an empty batch
result, publishes fine, but whose acknowledgement fails: the iteration is
fatal and unacknowledged. -/
theorem c2_witness :
    (handle_delivery (.ok (.ok ⟨5, "A"⟩)) menvAckFail).fatal = some "ack failed" ∧
    (handle_delivery (.ok (.ok ⟨5, "A"⟩)) menvAckFail).acked = false :=
  (c2_ack_and_failure_modes ⟨5, "A"⟩ menvAckFail).2.2.2 [] "ack failed" rfl rfl rfl

/-- C2 (counterexample): a message that parses and resolves, but whose
publish fails, ends the iteration fatally — the `?` at main.rs line 52
propagates and the process terminates, instead of logging the error and
continuing with the next message as the claim states. -/
theorem c2_counterexample :
    handle_delivery (.ok (.ok ⟨5, "A"⟩)) menvPubFail =
      { acked := false, published := none, fatal := some "publish failed" } :=
  rfl

/-- C3 (amended): the coordinator splits the request text into all of its
newline-separated lines — without trimming and without dropping empty lines
(only a final trailing newline adds no extra line, and a `'\r'` that
preceded a newline is stripped) — and launches exactly one resolution task
per line, in order. -/
theorem c3_split_untrimmed :
    (∀ (envOf : Nat → String → TaskEnv) (n : Nat) (songs : List String),
      (run_tasks envOf n songs).length = songs.length) ∧
    (∀ ls : List (List Char), ls ≠ [] →
      (∀ l ∈ ls, '\n' ∉ l) →
      (∀ l ∈ ls.dropLast, l.getLast? ≠ some '\r') →
      ls.getLast? ≠ some [] →
      rustLinesCore (List.intercalate ['\n'] ls) = ls) := by
  constructor
  · intro envOf n songs
    induction songs generalizing n with
    | nil => rfl
    | cons s rest ih => simp [run_tasks, ih]
  · intro ls hne hnl hcr hlast
    have hs := List.splitOn_intercalate ls '\n' hnl hne
    have hmap : ls.dropLast.map stripTrailingCR = ls.dropLast := by
      have hid : ∀ l ∈ ls.dropLast, stripTrailingCR l = id l := fun l hl => by
        unfold stripTrailingCR
        rw [if_neg (hcr l hl)]
        rfl
      rw [List.map_congr_left hid, List.map_id]
    unfold rustLinesCore
    rw [hs]
    dsimp only
    rw [hmap]
    rcases hgl : ls.getLast? with _ | last
    · exact absurd (List.getLast?_eq_none_iff.mp hgl) hne
    · rcases last with _ | ⟨c, cs⟩
      · exact absurd hgl hlast
      · dsimp only
        have hlg : ls.getLast hne = c :: cs := by
          have heq := List.getLast?_eq_getLast ls hne
          rw [hgl] at heq
          exact (Option.some_injective _ heq).symm
        rw [← hlg, List.dropLast_append_getLast hne]

/-- C3 (witness): the lines `"  A "`, `""`, `"B"` joined by newlines split
back into exactly those three lines — the interior empty line is kept and
surrounding whitespace is untouched. -/
theorem c3_witness :
    rustLinesCore (List.intercalate ['\n'] [[' ', 'A', ' '], [], ['B']]) =
      [[' ', 'A', ' '], [], ['B']] :=
  c3_split_untrimmed.2 [[' ', 'A', ' '], [], ['B']]
    (by decide) (by decide) (by decide) (by decide)

/-- C3 (counterexample): on the request text `"  A \n\nB"` the code keeps
the untrimmed line `"  A "` and the empty line — three tasks are spawned,
one of them for the empty line — whereas the claim predicts the two trimmed
lines `["A", "B"]`. -/
theorem c3_counterexample :
    rustLines "  A \n\nB" = ["  A ", "", "B"] ∧
    "" ∈ rustLines "  A \n\nB" ∧
    (run_tasks (fun _ _ => failEnv) 0 (rustLines "  A \n\nB")).length = 3 ∧
    rustLines "  A \n\nB" ≠ ["A", "B"] :=
  ⟨rfl, by decide, rfl, by decide⟩

/-- C5: for a non-empty request in which every song resolves successfully,
the published list has exactly one line per input line, numbered `1..N` in
input order, each formatted `"{n}. 🎵 *{song}*\n🔗 {link}"`. -/
theorem c5_all_success (text : String) (benv : BatchEnv)
    (dlink : Nat → String → String)
    (hbuild : benv.clientBuildError = none)
    (hok : ∀ i s, (benv.envOf i s).joinPanic = none ∧
      (∃ v, (benv.envOf i s).oracles.search = .ok (some v)) ∧
      (∃ k, (benv.envOf i s).oracles.tomp3k = .ok (some k)) ∧
      (benv.envOf i s).oracles.convert = .ok (some (dlink i s)))
    (hne : text ≠ "") :
    process_songs text benv =
      .ok ((rustLines text).enum.map (fun p =>
        toString (p.1 + 1) ++ ". " ++ ("🎵 *" ++ p.2 ++ "*\n🔗 " ++ dlink p.1 p.2))) ∧
    ((rustLines text).enum.map (fun p =>
        toString (p.1 + 1) ++ ". " ++ ("🎵 *" ++ p.2 ++ "*\n🔗 " ++ dlink p.1 p.2))).length =
      (rustLines text).length := by
  constructor
  · unfold process_songs
    rw [hbuild]
    exact congrArg Except.ok (collect_links_all_ok benv.envOf dlink hok (rustLines text) 0)
  · simp [List.enum_length]

/-- C5 (witness): both songs of `"A\nB"` resolving, the reply lists them as
`1.` and `2.` in input order. -/
theorem c5_witness :
    process_songs "A\nB" benvAllOk =
      .ok ["1. 🎵 *A*\n🔗 LA", "2. 🎵 *B*\n🔗 LB"] := by
  have h := (c5_all_success "A\nB" benvAllOk (fun _ s => "L" ++ s) rfl
    (fun i s => ⟨rfl, ⟨"vid", rfl⟩, ⟨"kk", rfl⟩, rfl⟩) (by decide)).1
  exact h.trans rfl

/-- C6: when every song in the batch fails to resolve, the coordinator
returns `Ok` of the empty list (not an error); the consumer then still
publishes a reply with empty text carrying the request's `chat_id` and
acknowledges the original message (the broker operations themselves
succeeding). -/
theorem c6_all_fail (msg : RabbitMessage) (menv : MessageEnv)
    (hbuild : menv.batch.clientBuildError = none)
    (hfail : ∀ i s link, runTask s (menv.batch.envOf i s) ≠ .succeeded link)
    (hpub : menv.publishResult = .ok ()) (hack : menv.ackResult = .ok ()) :
    process_songs msg.text menv.batch = .ok [] ∧
    handle_delivery (.ok (.ok msg)) menv =
      { acked := true, published := some { chat_id := msg.chat_id, text := "" },
        fatal := none } := by
  have hp : process_songs msg.text menv.batch = .ok [] := by
    unfold process_songs
    rw [hbuild]
    exact congrArg Except.ok
      (collect_links_none_ok menv.batch.envOf hfail (rustLines msg.text) 0)
  refine ⟨hp, ?_⟩
  simp [handle_delivery, hp, hpub, hack, publish_to_reply_queue]
  rfl

/-- C6 (witness): with both songs of `"A\nB"` failing their search stage and
the broker operations succeeding, the reply `{chat_id := 7, text := ""}` is
published and the message acknowledged. -/
theorem c6_witness :
    process_songs "A\nB" benvAllFail = .ok [] ∧
    handle_delivery (.ok (.ok ⟨7, "A\nB"⟩)) menvOkAllFail =
      { acked := true, published := some { chat_id := 7, text := "" },
        fatal := none } :=
  c6_all_fail ⟨7, "A\nB"⟩ menvOkAllFail rfl
    (fun _ _ _ h => nomatch h) rfl rfl

/-- C8: per-song errors are contained in their own task: the coordinator
joins all tasks and returns `Ok` whatever the task outcomes are (whenever
the client build step succeeds), and replacing any single position's outcome
by a failure or a panic leaves exactly the sibling successes in the output,
each with its original number. -/
theorem c8_isolation :
    (∀ (text : String) (benv : BatchEnv), benv.clientBuildError = none →
      ∃ links, process_songs text benv = .ok links) ∧
    (∀ (results : List TaskOutcome) (i : Nat) (out : TaskOutcome),
      (∀ link, out ≠ .succeeded link) →
      collect_links (results.set i out) = collect_links_masked i 0 results) := by
  constructor
  · intro text benv hbuild
    refine ⟨collect_links (run_tasks benv.envOf 0 (rustLines text)), ?_⟩
    unfold process_songs
    rw [hbuild]
  · intro results i out hout
    have h := collect_links_set out hout results 0 i
    simpa [collect_links] using h

/-- C8 (witness): panicking the middle task of three successes leaves the
sibling lines `1.` and `3.` untouched. -/
theorem c8_witness :
    collect_links ([TaskOutcome.succeeded "🎵 *A*\n🔗 LA",
        TaskOutcome.succeeded "🎵 *B*\n🔗 LB",
        TaskOutcome.succeeded "🎵 *C*\n🔗 LC"].set 1 (.panicked "boom")) =
      collect_links_masked 1 0 [TaskOutcome.succeeded "🎵 *A*\n🔗 LA",
        TaskOutcome.succeeded "🎵 *B*\n🔗 LB",
        TaskOutcome.succeeded "🎵 *C*\n🔗 LC"] :=
  c8_isolation.2 _ 1 (.panicked "boom") (fun _ h => nomatch h)

/-- C9: whenever an iteration publishes a reply, the reply's `chat_id`
equals the `chat_id` of the triggering parsed message, unchanged by
resolution. -/
theorem c9_chat_id_preserved (msg : RabbitMessage) (menv : MessageEnv)
    (reply : RabbitMessage)
    (h : (handle_delivery (.ok (.ok msg)) menv).published = some reply) :
    reply.chat_id = msg.chat_id := by
  rcases hp : process_songs msg.text menv.batch with e | links <;>
    rcases hpub : menv.publishResult with pe | pu <;>
      rcases hack : menv.ackResult with ae | au <;>
        simp [handle_delivery, hp, hpub, hack, publish_to_reply_queue] at h <;>
          (subst h; rfl)

/-- C9 (witness): the reply published for the request `{chat_id := 42,
text := "x"}` carries `chat_id = 42`. -/
theorem c9_witness :
    ({ chat_id := 42, text := "" } : RabbitMessage).chat_id =
      ({ chat_id := 42, text := "x" } : RabbitMessage).chat_id :=
  c9_chat_id_preserved ⟨42, "x"⟩ menvOkAllFail ⟨42, ""⟩ rfl

end RustinBot
